import Mathlib

/-! # ScanFlow: the QR check-in controller of the Mini App (webapp/app.js)

A shallow embedding of `webapp/app.js`.  The module-level variables
(`html5QrCode`, `isScanning`), the class lists and text of the DOM elements the
script touches, and the calls made to the external collaborators (camera
scanner, host bridge `tg`, `fetch`, `console`, timers) are the fields of
`State`; the calls are appended to `State.trace`, oldest first.

An `async` function is cut at its `await`s: `f_begin` is the synchronous part
run by the call, `f_after...` the continuation run when the awaited promise
settles, with the settlement as an argument.  `startScanner`, `stopScanner`
and `onScanSuccess` compose the pieces into an uninterrupted run; `step` runs
the pieces of several `onScanSuccess` activations in any order.

Conventions.  DOM calls, `console`, haptic feedback, `setTimeout` and the
`Html5Qrcode` constructor are taken not to throw; a thrown value is an object
or primitive whose `name` can be read.  JavaScript strings are represented by
`String`, with the whitespace set of `String.prototype.trim` spelled out.  An
integer of the response body is printed as the Number it parses to.
-/

namespace MeoBot

/-! ## Values exchanged with the environment -/

/-- Value thrown by an external call.  The script reads only `err.name`
(app.js:72-76); `name` is `none` when the value has no such property. -/
structure JsErr where
  name : Option String
deriving DecidableEq

/-- Settlement of an awaited promise that carries no value, or the completion
of a synchronous call that may throw. -/
inductive Outcome where
  | resolved
  | rejected (err : JsErr)
deriving DecidableEq

/-- First argument of `Html5Qrcode.start`: the camera constraints object.
`facingMode` is `none` for an object without that key. -/
structure CameraConfig where
  facingMode : Option String
deriving DecidableEq

/-- Second argument of `Html5Qrcode.start` (app.js:57-61 and 81-85). -/
structure ScanConfig where
  fps : Nat
  qrboxWidth : Nat
  qrboxHeight : Nat
  aspectRatio : Nat
deriving DecidableEq

/-- A flat JSON object with string values: the argument of `JSON.stringify`
at app.js:144 and app.js:183. -/
abbrev JsonObj := List (String × String)

/-- Parsed body of the check-in response, `await response.json()`; an absent
field is `none` (JavaScript `undefined`).  `total_days` is the integer written
in the body; the script holds the Number it parses to (`toDouble`). -/
structure CheckInResponse where
  success : Bool
  already_marked : Option Bool
  message : Option String
  total_days : Option Int
  error : Option String
deriving DecidableEq

/-- Settlement of lines 139-150: `failed` when `fetch` or `response.json()`
rejects (or the parsed body is not an object, so that reading `result.success`
throws into the same `catch`), `parsed` when a result object is obtained. -/
inductive FetchOutcome where
  | failed (err : JsErr)
  | parsed (result : CheckInResponse)
deriving DecidableEq

/-- A call made to an external collaborator. -/
inductive Effect where
  | consoleLog (msg : String) (arg : String)
  | consoleError (msg : String)
  | haptic (kind : String)
  | cameraStart (camera : CameraConfig) (config : ScanConfig)
  | cameraStop
  | fetch (url : String) (method : String) (contentType : String) (body : JsonObj)
  | sendData (data : JsonObj)
  | setTimeoutClose (delayMs : Nat)
deriving DecidableEq

/-! ## State -/

/-- The host bridge object `tg` as far as the script reads it. -/
structure Tg where
  hasHapticFeedback : Bool
  initData : String
deriving DecidableEq

/-- Class lists (`classList`, an ordered set of tokens) and text contents of
the elements bound at app.js:14-20. -/
structure Dom where
  scannerContainer : List String
  scannerPlaceholder : List String
  scanBtn : List String
  stopBtn : List String
  statusEl : List String
  statusIcon : String
  statusText : String
deriving DecidableEq

/-- Module state.  `html5QrCode` is `false` for `null` and `true` once the
`Html5Qrcode` instance exists. -/
structure State where
  tg : Tg
  html5QrCode : Bool
  isScanning : Bool
  dom : Dom
  trace : List Effect
deriving DecidableEq

/-! ## JavaScript primitives used by the script -/

/-- The call `classList.add(token)`. -/
def classAdd (token : String) (classes : List String) : List String :=
  if token ∈ classes then classes else classes ++ [token]

/-- The call `classList.remove(token)`. -/
def classRemove (token : String) (classes : List String) : List String :=
  classes.filter (fun c => c ≠ token)

/-- White space and line terminators stripped by `String.prototype.trim`. -/
def isJsWhiteSpace (c : Char) : Bool :=
  let n := c.toNat
  n == 0x09 || n == 0x0A || n == 0x0B || n == 0x0C || n == 0x0D || n == 0x20
    || n == 0xA0 || n == 0x1680 || (0x2000 ≤ n && n ≤ 0x200A) || n == 0x2028
    || n == 0x2029 || n == 0x202F || n == 0x205F || n == 0x3000 || n == 0xFEFF

/-- The call `s.trim()`. -/
def jsTrim (s : String) : String :=
  String.mk
    (((s.data.dropWhile isJsWhiteSpace).reverse.dropWhile isJsWhiteSpace).reverse)

/-- A string-or-undefined value inside a template literal. -/
def templateStr (v : Option String) : String :=
  v.getD "undefined"

/-- The number of low bits that rounding to 53 significant bits drops from
`v`: zero below 2^53, and one more for each halving needed to get there.  The
first argument bounds the recursion. -/
def droppedBits : Nat → Nat → Nat
  | 0, _ => 0
  | fuel + 1, v => if v < 2 ^ 53 then 0 else droppedBits fuel (v / 2) + 1

/-- The Number nearest to a natural number, as its exact integer value: the
value itself below 2^53, and otherwise the value rounded to 53 significant
bits, to nearest with ties to even.  A result of 2^1024 stands for Infinity. -/
def toDouble (v : Nat) : Nat :=
  if v < 2 ^ 53 then v
  else
    let e := droppedBits v v
    let q := v / 2 ^ e
    let r := v % 2 ^ e
    let half := 2 ^ (e - 1)
    if r < half ∨ (r = half ∧ q % 2 = 0) then q * 2 ^ e else (q + 1) * 2 ^ e

/-- The decimals with all digits zero below position `j` that are next to the
Number `x` and read back as `x`: the one at or below `x`, the one above it, or,
when both read back as `x`, the closer one (the one with an even last digit on
a tie). -/
def shortestAt (x j : Nat) : Option Nat :=
  let p := 10 ^ j
  let lo := x / p * p
  let hi := lo + p
  if toDouble lo = x then
    if toDouble hi = x then
      if x - lo < hi - x then some lo
      else if hi - x < x - lo then some hi
      else if (x / p) % 2 = 0 then some lo else some hi
    else some lo
  else if toDouble hi = x then some hi
  else none

/-- The decimal with the fewest significant digits that reads back as the
Number `x`, the closest to `x` among those: the digits that `Number::toString`
prints. -/
def shortestDecimal (x : Nat) : Nat :=
  ((List.range (toString x).length).reverse.findSome? (shortestAt x)).getD x

/-- The layout of `Number::toString` for a positive integer decimal `v`:
plain digits below 10^21, and from there the significant digits with a point
after the first one, followed by the exponent. -/
def formatDecimal (v : Nat) : String :=
  if v < 10 ^ 21 then toString v
  else
    let exponent := toString ((toString v).length - 1)
    match ((toString v).data.reverse.dropWhile (fun c => c.toNat == 48)).reverse with
    | [] => "0"
    | [d] => String.mk [d] ++ "e+" ++ exponent
    | d :: ds => String.mk [d] ++ "." ++ String.mk ds ++ "e+" ++ exponent

/-- The string of the Number that an integer of a JSON body parses to, as a
template literal gives it (`Number::toString`): the integer is rounded to the
nearest Number, which is Infinity from 2^1024 = (2^256)^4 on. -/
def numberToString (n : Int) : String :=
  let x := toDouble n.natAbs
  if x = 0 then "0"
  else if (2 ^ 256) ^ 4 ≤ x then (if n < 0 then "-Infinity" else "Infinity")
  else (if n < 0 then "-" else "") ++ formatDecimal (shortestDecimal x)

/-- An integer-or-undefined value of a parsed body inside a template literal. -/
def templateInt (v : Option Int) : String :=
  match v with
  | some n => numberToString n
  | none => "undefined"

/-- Assigning a string-or-undefined value to `textContent` (a nullable
attribute: `undefined` clears the text). -/
def textContentOf (v : Option String) : String :=
  v.getD ""

/-- The expression `v || fallback` for a string-or-undefined `v`. -/
def jsOr (v : Option String) (fallback : String) : String :=
  match v with
  | some e => if e = "" then fallback else e
  | none => fallback

/-- Record a call to an external collaborator. -/
def emit (e : Effect) (s : State) : State :=
  { s with trace := s.trace ++ [e] }

/-! ## app.js:27-36, 115-120 -/

/-- The function `showStatus(type, icon, text)`, app.js:27-31. -/
def showStatus (type icon text : String) (s : State) : State :=
  { s with dom := { s.dom with
      statusEl := ["status", type], statusIcon := icon, statusText := text } }

/-- The function `hideStatus()`, app.js:34-36. -/
def hideStatus (s : State) : State :=
  { s with dom := { s.dom with statusEl := classAdd "hidden" s.dom.statusEl } }

/-- The function `resetUI()`, app.js:115-120. -/
def resetUI (s : State) : State :=
  { s with dom := { s.dom with
      scannerContainer := classRemove "active" s.dom.scannerContainer,
      scannerPlaceholder := classRemove "hidden" s.dom.scannerPlaceholder,
      scanBtn := classRemove "hidden" s.dom.scanBtn,
      stopBtn := classAdd "hidden" s.dom.stopBtn } }

/-- The guarded call
`if (tg.HapticFeedback) tg.HapticFeedback.notificationOccurred(kind)`. -/
def haptic (kind : String) (s : State) : State :=
  if s.tg.hasHapticFeedback then emit (.haptic kind) s else s

/-! ## startScanner, app.js:39-99 -/

/-- The scan configuration literal passed to both `start` calls. -/
def scanConfig : ScanConfig :=
  { fps := 10, qrboxWidth := 200, qrboxHeight := 200, aspectRatio := 1 }

/-- Lines 41-64 of app.js: the synchronous part of `startScanner`, up to the
first `await html5QrCode.start(...)`. -/
def startScanner_begin (s : State) : State :=
  let s := hideStatus s
  let s := if !s.html5QrCode then { s with html5QrCode := true } else s
  let s := { s with dom := { s.dom with
      scannerContainer := classAdd "active" s.dom.scannerContainer,
      scannerPlaceholder := classAdd "hidden" s.dom.scannerPlaceholder,
      scanBtn := classAdd "hidden" s.dom.scanBtn,
      stopBtn := classRemove "hidden" s.dom.stopBtn } }
  emit (.cameraStart { facingMode := some "environment" } scanConfig) s

/-- Lines 66-98 of app.js, run when the first `start` settles.  The flag
returned is `true` when the function is suspended again, at the second `start`
(app.js:79). -/
def startScanner_afterFirst (first : Outcome) (s : State) : State × Bool :=
  match first with
  | .resolved => ({ s with isScanning := true }, false)
  | .rejected err =>
    let s := emit (.consoleError "Ошибка запуска сканера:") s
    if err.name = some "NotAllowedError" then
      (resetUI (showStatus "error" "❌" "Разрешите доступ к камере" s), false)
    else if err.name = some "NotFoundError" then
      (resetUI (showStatus "error" "❌" "Камера не найдена" s), false)
    else if err.name = some "OverconstrainedError" then
      (emit (.cameraStart { facingMode := some "user" } scanConfig) s, true)
    else
      (resetUI (showStatus "error" "❌" "Не удалось запустить камеру" s), false)

/-- Lines 89-97 of app.js, run when the second `start` settles. -/
def startScanner_afterFallback (second : Outcome) (s : State) : State :=
  match second with
  | .resolved => { s with isScanning := true }
  | .rejected _ => resetUI (showStatus "error" "❌" "Камера недоступна" s)

/-- An uninterrupted run of `startScanner()`; `first` and `second` are the
settlements of the two `start` calls (`second` is read only if the second
call is made). -/
def startScanner (first second : Outcome) (s : State) : State :=
  let r := startScanner_afterFirst first (startScanner_begin s)
  if r.2 then startScanner_afterFallback second r.1 else r.1

/-! ## stopScanner, app.js:102-112 -/

/-- Lines 103-105 and 111 of app.js: the synchronous part of `stopScanner`.
The flag is `true` when `html5QrCode.stop()` has been called and is awaited. -/
def stopScanner_begin (s : State) : State × Bool :=
  if s.html5QrCode && s.isScanning then (emit .cameraStop s, true)
  else (resetUI s, false)

/-- Lines 106-111 of app.js, run when `html5QrCode.stop()` settles. -/
def stopScanner_afterStop (stop : Outcome) (s : State) : State :=
  match stop with
  | .resolved => resetUI { s with isScanning := false }
  | .rejected _ => resetUI (emit (.consoleError "Ошибка остановки сканера:") s)

/-- An uninterrupted run of `stopScanner()`. -/
def stopScanner (stop : Outcome) (s : State) : State :=
  let r := stopScanner_begin s
  if r.2 then stopScanner_afterStop stop r.1 else r.1

/-! ## onScanSuccess, app.js:123-193 -/

/-- The constant `API_URL`, app.js:4. -/
def API_URL : String := ""

/-- Lines 124-132 of app.js: the synchronous part of `onScanSuccess`, up to
`await stopScanner()`.  The flag is the one of `stopScanner_begin`. -/
def onScanSuccess_begin (decodedText : String) (s : State) : State × Bool :=
  stopScanner_begin
    (haptic "success" (emit (.consoleLog "QR отсканирован:" decodedText) s))

/-- Lines 135-148 of app.js, run once `stopScanner()` has completed: the
loading status and the check-in request. -/
def onScanSuccess_afterStop (decodedText : String) (s : State) : State :=
  let s := showStatus "loading" "⏳" "Проверка кода..." s
  emit (.fetch (API_URL ++ "/api/check-in") "POST" "application/json"
    [("code", jsTrim decodedText), ("initData", s.tg.initData)]) s

/-- Lines 150-192 of app.js, run once the request settles; `send` is the
completion of `tg.sendData` (read only on the fallback path). -/
def onScanSuccess_afterFetch (decodedText : String) (response : FetchOutcome)
    (send : Outcome) (s : State) : State :=
  match response with
  | .parsed result =>
    if result.success then
      let s := haptic "success" s
      let s :=
        if result.already_marked = some true then
          showStatus "success" "✅" (textContentOf result.message) s
        else
          showStatus "success" "✅"
            (templateStr result.message ++ "\nВсего дней: "
              ++ templateInt result.total_days ++ "/5") s
      emit (.setTimeoutClose 2000) s
    else
      let s := haptic "error" s
      showStatus "error" "❌" (jsOr result.error "Ошибка") s
  | .failed _ =>
    let s := emit (.consoleError "Ошибка запроса:") s
    let s := emit (.sendData [("action", "check_in"), ("code", jsTrim decodedText)]) s
    match send with
    | .resolved => showStatus "success" "✅" "Код отправлен!" s
    | .rejected _ => showStatus "error" "❌" "Ошибка соединения" s

/-- The state of an uninterrupted run of `onScanSuccess(decodedText)` at its
`await fetch(...)`: the session has been stopped (`stop` is the settlement of
`html5QrCode.stop()`, read only if it was called) and the check-in request is
in flight. -/
def onScanSuccess_inFlight (decodedText : String) (stop : Outcome) (s : State) : State :=
  let r := onScanSuccess_begin decodedText s
  onScanSuccess_afterStop decodedText
    (if r.2 then stopScanner_afterStop stop r.1 else r.1)

/-- An uninterrupted run of `onScanSuccess(decodedText)`. -/
def onScanSuccess (decodedText : String) (stop : Outcome) (response : FetchOutcome)
    (send : Outcome) (s : State) : State :=
  onScanSuccess_afterFetch decodedText response send
    (onScanSuccess_inFlight decodedText stop s)

/-! ## Interleaved decode handlers

The scanner calls `onScanSuccess` once per decode-success event; each call is
an activation that is suspended at `await stopScanner()` and at
`await fetch(...)`, and other handlers run in between. -/

/-- Where an activation of `onScanSuccess` is suspended.  `stopPending` is the
flag of `onScanSuccess_begin`. -/
inductive Activation where
  | awaitingStop (decodedText : String) (stopPending : Bool)
  | awaitingFetch (decodedText : String)
  | finished
deriving DecidableEq

/-- Module state together with the activations of `onScanSuccess`, in order
of their decode events. -/
structure Sys where
  state : State
  acts : List Activation
deriving DecidableEq

/-- What the environment delivers: a decode-success event, the settlement of
the `await stopScanner()` of activation `i`, or the settlement of its request
(with the completion of `tg.sendData`, read only on the fallback path). -/
inductive Event where
  | decode (decodedText : String)
  | stopSettled (i : Nat) (stop : Outcome)
  | fetchSettled (i : Nat) (response : FetchOutcome) (send : Outcome)
deriving DecidableEq

/-- Run the piece of code the event resumes.  A settlement for an activation
that is not suspended there is ignored. -/
def step (sys : Sys) (ev : Event) : Sys :=
  match ev with
  | .decode decodedText =>
    let r := onScanSuccess_begin decodedText sys.state
    { state := r.1, acts := sys.acts ++ [.awaitingStop decodedText r.2] }
  | .stopSettled i stop =>
    match sys.acts[i]? with
    | some (.awaitingStop decodedText stopPending) =>
      { state := onScanSuccess_afterStop decodedText
          (if stopPending then stopScanner_afterStop stop sys.state else sys.state),
        acts := sys.acts.set i (.awaitingFetch decodedText) }
    | _ => sys
  | .fetchSettled i response send =>
    match sys.acts[i]? with
    | some (.awaitingFetch decodedText) =>
      { state := onScanSuccess_afterFetch decodedText response send sys.state,
        acts := sys.acts.set i .finished }
    | _ => sys

/-- Deliver a sequence of events, starting with no activation. -/
def run (s : State) (evs : List Event) : Sys :=
  evs.foldl step { state := s, acts := [] }

/-! ## Observers used in the statements -/

/-- The Idle visual state: scanner container inactive, placeholder and start
button visible, stop button hidden. -/
def idleUI (d : Dom) : Prop :=
  "active" ∉ d.scannerContainer ∧ "hidden" ∉ d.scannerPlaceholder
    ∧ "hidden" ∉ d.scanBtn ∧ "hidden" ∈ d.stopBtn

instance (d : Dom) : Decidable (idleUI d) := by
  unfold idleUI; infer_instance

/-- The camera constraints of the `start` calls recorded in a trace, in order. -/
def cameraStarts (tr : List Effect) : List CameraConfig :=
  tr.filterMap fun e =>
    match e with
    | .cameraStart camera _ => some camera
    | _ => none

/-- The payloads of the `tg.sendData` calls recorded in a trace, in order. -/
def sendDataCalls (tr : List Effect) : List JsonObj :=
  tr.filterMap fun e =>
    match e with
    | .sendData data => some data
    | _ => none

/-- Number of check-in requests recorded in a trace. -/
def fetchCount (tr : List Effect) : Nat :=
  tr.countP fun e =>
    match e with
    | .fetch _ _ _ _ => true
    | _ => false

/-- The camera constraints of the `start` calls made by one run of
`startScanner`: those recorded after the ones already in the trace. -/
def startRequests (first second : Outcome) (s : State) : List CameraConfig :=
  (cameraStarts (startScanner first second s).trace).drop (cameraStarts s.trace).length

/-- A camera request is unconstrained when it names no facing mode. -/
def unconstrained (c : CameraConfig) : Prop :=
  c.facingMode = none

instance (c : CameraConfig) : Decidable (unconstrained c) := by
  unfold unconstrained; infer_instance

/-- Number of decode-success events in a sequence of events. -/
def decodeCount (evs : List Event) : Nat :=
  evs.countP fun ev =>
    match ev with
    | .decode _ => true
    | _ => false

/-- Number of activations whose `await stopScanner()` has settled. -/
def pastStopCount (acts : List Activation) : Nat :=
  acts.countP fun a =>
    match a with
    | .awaitingStop _ _ => false
    | _ => true

/-- A page in the Idle visual state before any scan, used as a concrete input. -/
def exampleIdle : State :=
  { tg := { hasHapticFeedback := true, initData := "query_id=AAA" },
    html5QrCode := false, isScanning := false,
    dom := { scannerContainer := ["scanner-container"],
             scannerPlaceholder := ["scanner-placeholder"],
             scanBtn := ["btn"], stopBtn := ["btn", "hidden"],
             statusEl := ["status", "hidden"], statusIcon := "", statusText := "" },
    trace := [] }

/-- The response of the specification for a check-in already recorded. -/
def exampleAlreadyMarked : CheckInResponse :=
  { success := true, already_marked := some true, message := some "Already checked in",
    total_days := none, error := none }

/-- The response of the specification for a new check-in, the third day. -/
def exampleCheckedIn : CheckInResponse :=
  { success := true, already_marked := some false, message := some "Checked in",
    total_days := some 3, error := none }

/-- A response whose day count, 10^21, is beyond the integers that a Number
prints in plain digits. -/
def exampleHugeCount : CheckInResponse :=
  { success := true, already_marked := some false, message := some "Checked in",
    total_days := some (10 ^ 21), error := none }

/-- The response of the specification for a refused code. -/
def exampleInvalidCode : CheckInResponse :=
  { success := false, already_marked := none, message := none, total_days := none,
    error := some "Invalid code" }

/-- The page after a successful `startScanner()`: a session is active. -/
def exampleScanning : State :=
  startScanner .resolved .resolved exampleIdle

/-! ## Lemmas about the primitives -/

theorem classRemove_not_mem (t : String) (l : List String) : t ∉ classRemove t l := by
  simp [classRemove]

theorem classAdd_mem (t : String) (l : List String) : t ∈ classAdd t l := by
  unfold classAdd
  split <;> simp_all

theorem idleUI_resetUI (s : State) : idleUI (resetUI s).dom := by
  simp [idleUI, resetUI, classRemove_not_mem, classAdd_mem]

theorem startScanner_begin_eq (s : State) :
    startScanner_begin s
      = { tg := s.tg, html5QrCode := true, isScanning := s.isScanning,
          dom := { scannerContainer := classAdd "active" s.dom.scannerContainer,
                   scannerPlaceholder := classAdd "hidden" s.dom.scannerPlaceholder,
                   scanBtn := classAdd "hidden" s.dom.scanBtn,
                   stopBtn := classRemove "hidden" s.dom.stopBtn,
                   statusEl := classAdd "hidden" s.dom.statusEl,
                   statusIcon := s.dom.statusIcon,
                   statusText := s.dom.statusText },
          trace := s.trace
            ++ [.cameraStart { facingMode := some "environment" } scanConfig] } := by
  cases h : s.html5QrCode <;> simp [startScanner_begin, emit, hideStatus, h]

theorem startScanner_begin_trace (s : State) :
    (startScanner_begin s).trace
      = s.trace ++ [.cameraStart { facingMode := some "environment" } scanConfig] := by
  rw [startScanner_begin_eq]

theorem cameraStarts_append (a b : List Effect) :
    cameraStarts (a ++ b) = cameraStarts a ++ cameraStarts b := by
  simp [cameraStarts, List.filterMap_append]

theorem cameraStarts_startScanner (first second : Outcome) (s : State) :
    cameraStarts (startScanner first second s).trace
      = cameraStarts s.trace ++
          ({ facingMode := some "environment" } ::
            match first with
            | .resolved => []
            | .rejected err =>
              if err.name = some "OverconstrainedError" then [{ facingMode := some "user" }]
              else []) := by
  have hb := startScanner_begin_trace s
  cases first with
  | resolved =>
    simp [startScanner, startScanner_afterFirst, hb, cameraStarts_append]
    simp [cameraStarts]
  | rejected err =>
    by_cases h1 : err.name = some "NotAllowedError"
    · simp [startScanner, startScanner_afterFirst, h1, hb, emit, resetUI, showStatus,
        cameraStarts_append]
      simp [cameraStarts]
    · by_cases h2 : err.name = some "NotFoundError"
      · simp [startScanner, startScanner_afterFirst, h2, hb, emit, resetUI, showStatus,
          cameraStarts_append]
        simp [cameraStarts]
      · by_cases h3 : err.name = some "OverconstrainedError"
        · cases second <;>
            simp [startScanner, startScanner_afterFirst, startScanner_afterFallback, h3, hb,
              emit, resetUI, showStatus, cameraStarts_append] <;>
            simp [cameraStarts]
        · simp [startScanner, startScanner_afterFirst, h1, h2, h3, hb, emit, resetUI,
            showStatus, cameraStarts_append]
          simp [cameraStarts]

theorem startRequests_eq (first second : Outcome) (s : State) :
    startRequests first second s
      = { facingMode := some "environment" } ::
          match first with
          | .resolved => []
          | .rejected err =>
            if err.name = some "OverconstrainedError" then [{ facingMode := some "user" }]
            else [] := by
  simp [startRequests, cameraStarts_startScanner]

/-! ## Printing of integers below 2^53 -/

theorem droppedBits_quotient (fuel v : Nat) (hf : v ≤ fuel) (hv : 2 ^ 53 ≤ v) :
    1 ≤ droppedBits fuel v ∧ 2 ^ 52 ≤ v / 2 ^ droppedBits fuel v := by
  induction fuel generalizing v with
  | zero => omega
  | succ fuel ih =>
    have hnot : ¬ v < 2 ^ 53 := by omega
    simp only [droppedBits, hnot, if_false]
    refine ⟨by omega, ?_⟩
    by_cases h2 : 2 ^ 53 ≤ v / 2
    · have hq := (ih (v / 2) (by omega) h2).2
      have key : v / 2 ^ (droppedBits fuel (v / 2) + 1)
          = v / 2 / 2 ^ droppedBits fuel (v / 2) := by
        rw [Nat.pow_succ, Nat.mul_comm, Nat.div_div_eq_div_mul]
      rw [key]
      exact hq
    · have h0 : droppedBits fuel (v / 2) = 0 := by
        cases fuel with
        | zero => rfl
        | succ f => simp [droppedBits]; omega
      rw [h0]
      simp
      omega

theorem toDouble_of_lt (v : Nat) (h : v < 2 ^ 53) : toDouble v = v := by
  unfold toDouble
  rw [if_pos h]

theorem toDouble_ge (v : Nat) (h : 2 ^ 53 ≤ v) : 2 ^ 53 ≤ toDouble v := by
  have hnot : ¬ v < 2 ^ 53 := by omega
  obtain ⟨he, hq⟩ := droppedBits_quotient v v (Nat.le_refl v) h
  have hp : 2 ≤ 2 ^ droppedBits v v := by
    calc 2 = 2 ^ 1 := rfl
      _ ≤ 2 ^ droppedBits v v := Nat.pow_le_pow_right (by decide) he
  have hmul : 2 ^ 53 ≤ v / 2 ^ droppedBits v v * 2 ^ droppedBits v v := by
    calc 2 ^ 53 = 2 ^ 52 * 2 := by norm_num
      _ ≤ v / 2 ^ droppedBits v v * 2 ^ droppedBits v v := Nat.mul_le_mul hq hp
  simp only [toDouble, hnot, if_false]
  split
  · exact hmul
  · exact Nat.le_trans hmul (Nat.mul_le_mul_right _ (Nat.le_succ _))

theorem toDouble_eq_safe (v x : Nat) (hx : x < 2 ^ 53) (h : toDouble v = x) : v = x := by
  by_cases hv : v < 2 ^ 53
  · rw [toDouble_of_lt v hv] at h
    exact h
  · have := toDouble_ge v (by omega)
    omega

theorem shortestAt_reads_back (x j v : Nat) (h : shortestAt x j = some v) :
    toDouble v = x := by
  unfold shortestAt at h
  simp only at h
  split at h
  · split at h
    · split at h
      · cases h; assumption
      · split at h
        · cases h; assumption
        · split at h <;> (cases h; assumption)
    · cases h; assumption
  · split at h
    · cases h; assumption
    · cases h

theorem shortestDecimal_safe (x : Nat) (hx : x < 2 ^ 53) : shortestDecimal x = x := by
  unfold shortestDecimal
  cases hfind : (List.range (toString x).length).reverse.findSome? (shortestAt x) with
  | none => rfl
  | some v =>
    obtain ⟨j, _, hj⟩ := List.exists_of_findSome?_eq_some hfind
    exact toDouble_eq_safe v x hx (shortestAt_reads_back x j v hj)

theorem numberToString_safe (n : Int) (h : n.natAbs < 2 ^ 53) :
    numberToString n = toString n := by
  have hbig : ¬ (2 ^ 256) ^ 4 ≤ n.natAbs := by
    have : (2 : Nat) ^ 53 ≤ (2 ^ 256) ^ 4 := by norm_num
    omega
  have hfmt : formatDecimal n.natAbs = toString n.natAbs := by
    have : n.natAbs < 10 ^ 21 := by
      have : (2 : Nat) ^ 53 ≤ 10 ^ 21 := by norm_num
      omega
    unfold formatDecimal
    rw [if_pos this]
  simp only [numberToString, toDouble_of_lt _ h, hbig, if_false, shortestDecimal_safe _ h, hfmt]
  cases n with
  | ofNat m =>
    by_cases hm : m = 0
    · subst hm; rfl
    · have : ¬ (Int.ofNat m < 0) := by simp
      simp [hm]
      rfl
  | negSucc m =>
    have : Int.negSucc m < 0 := Int.negSucc_lt_zero m
    simp [this]
    rfl

/-! ## Check-in response rendering -/

/-- C1 as stated fails for a day count that a Number does not print in plain
digits: with total_days = 10^21 the text rendered ends in "1e+21/5", not in
the integer followed by "/5". -/
theorem onScanSuccess_huge_count_counterexample :
    (exampleHugeCount.success = true ∧ exampleHugeCount.already_marked = some false
      ∧ exampleHugeCount.message = some "Checked in"
      ∧ exampleHugeCount.total_days = some 1000000000000000000000)
    ∧ (onScanSuccess "MEO-1" .resolved (.parsed exampleHugeCount) .resolved
        exampleScanning).dom.statusText = "Checked in\nВсего дней: 1e+21/5"
    ∧ (onScanSuccess "MEO-1" .resolved (.parsed exampleHugeCount) .resolved
        exampleScanning).dom.statusText
      ≠ "Checked in\nВсего дней: 1000000000000000000000/5" := by
  decide

/-- C1, amended.  For a response with success true, message m and total_days
an integer n with |n| < 2^53, the status rendered by onScanSuccess has kind
success; its text is exactly m when already_marked is true, and m, a newline
and "Всего дней: n/5" with n in decimal otherwise. -/
theorem onScanSuccess_success_status (decodedText : String) (stop send : Outcome)
    (s : State) (r : CheckInResponse) (m : String) (n : Int)
    (hs : r.success = true) (hm : r.message = some m) (hn : r.total_days = some n)
    (hsafe : n.natAbs < 2 ^ 53) :
    (onScanSuccess decodedText stop (.parsed r) send s).dom.statusEl = ["status", "success"]
    ∧ (onScanSuccess decodedText stop (.parsed r) send s).dom.statusText
        = if r.already_marked = some true then m
          else m ++ "\nВсего дней: " ++ toString n ++ "/5" := by
  simp only [onScanSuccess, onScanSuccess_afterFetch, hs, hm, hn, if_true]
  split <;>
    simp [emit, showStatus, textContentOf, templateStr, templateInt,
      numberToString_safe n hsafe]

/-- C1 at a response of the specification: a new check-in on the third day
renders the message with the day count. -/
theorem onScanSuccess_success_status_witness :
    (exampleCheckedIn.success = true ∧ exampleCheckedIn.message = some "Checked in"
      ∧ exampleCheckedIn.total_days = some 3 ∧ (3 : Int).natAbs < 2 ^ 53)
    ∧ (onScanSuccess "MEO-1" .resolved (.parsed exampleCheckedIn) .resolved
        exampleScanning).dom.statusEl = ["status", "success"]
    ∧ (onScanSuccess "MEO-1" .resolved (.parsed exampleCheckedIn) .resolved
        exampleScanning).dom.statusText = "Checked in\nВсего дней: 3/5" :=
  ⟨⟨rfl, rfl, rfl, by decide⟩,
   onScanSuccess_success_status "MEO-1" .resolved .resolved exampleScanning
     exampleCheckedIn "Checked in" 3 rfl rfl rfl (by decide)⟩

/-- C2.  For a response with success false, the status rendered by
onScanSuccess has kind error; its text is the server's error string verbatim
when that string is present and not empty, and the fallback "Ошибка" when the
error field is absent or empty. -/
theorem onScanSuccess_error_status (decodedText : String) (stop send : Outcome)
    (s : State) (r : CheckInResponse) (hs : r.success = false) :
    (onScanSuccess decodedText stop (.parsed r) send s).dom.statusEl = ["status", "error"]
    ∧ (onScanSuccess decodedText stop (.parsed r) send s).dom.statusText
        = match r.error with
          | some e => if e = "" then "Ошибка" else e
          | none => "Ошибка" := by
  simp only [onScanSuccess, onScanSuccess_afterFetch, hs]
  simp [showStatus, jsOr]

/-- C2 at the response of the specification: the refusal is rendered
verbatim. -/
theorem onScanSuccess_error_status_witness :
    exampleInvalidCode.success = false
    ∧ (onScanSuccess "MEO-1" .resolved (.parsed exampleInvalidCode) .resolved
        exampleScanning).dom.statusEl = ["status", "error"]
    ∧ (onScanSuccess "MEO-1" .resolved (.parsed exampleInvalidCode) .resolved
        exampleScanning).dom.statusText = "Invalid code" :=
  ⟨rfl,
   onScanSuccess_error_status "MEO-1" .resolved .resolved exampleScanning
     exampleInvalidCode rfl⟩

/-! ## Fallback through the host bridge -/

/-- C3 as stated fails: the request is rejected, tg.sendData returns, and the
status rendered afterwards has kind success with the text "Код отправлен!",
not a connection error. -/
theorem onScanSuccess_fallback_status_counterexample :
    (onScanSuccess " MEO-1 " .resolved (.failed { name := some "TypeError" }) .resolved
        exampleScanning).dom.statusEl = ["status", "success"]
    ∧ (onScanSuccess " MEO-1 " .resolved (.failed { name := some "TypeError" }) .resolved
        exampleScanning).dom.statusText = "Код отправлен!"
    ∧ (onScanSuccess " MEO-1 " .resolved (.failed { name := some "TypeError" }) .resolved
        exampleScanning).dom.statusEl ≠ ["status", "error"] := by
  decide

/-- C3, amended.  When the check-in request fails, onScanSuccess calls
tg.sendData exactly once, with the payload of action check_in and the trimmed
decoded text; the status rendered afterwards is the success status
"Код отправлен!" when sendData returns, and the connection error
"Ошибка соединения" of kind error when sendData throws. -/
theorem onScanSuccess_fallback (decodedText : String) (stop send : Outcome)
    (err : JsErr) (s : State) :
    sendDataCalls (onScanSuccess decodedText stop (.failed err) send s).trace
      = sendDataCalls s.trace
          ++ [[("action", "check_in"), ("code", jsTrim decodedText)]]
    ∧ (onScanSuccess decodedText stop (.failed err) send s).dom.statusEl
        = (match send with
          | .resolved => ["status", "success"]
          | .rejected _ => ["status", "error"])
    ∧ (onScanSuccess decodedText stop (.failed err) send s).dom.statusText
        = (match send with
          | .resolved => "Код отправлен!"
          | .rejected _ => "Ошибка соединения") := by
  have ht : sendDataCalls (onScanSuccess_inFlight decodedText stop s).trace
      = sendDataCalls s.trace := by
    cases h1 : s.tg.hasHapticFeedback <;> cases h2 : s.html5QrCode <;>
      cases h3 : s.isScanning <;> cases stop <;>
      simp [onScanSuccess_inFlight, onScanSuccess_begin, onScanSuccess_afterStop,
        stopScanner_begin, stopScanner_afterStop, haptic, emit, showStatus, resetUI,
        sendDataCalls, List.filterMap_append, h1, h2, h3]
  refine ⟨?_, ?_, ?_⟩
  · cases send <;>
      simp [onScanSuccess, onScanSuccess_afterFetch, emit, showStatus] <;>
      simp [sendDataCalls, List.filterMap_append] <;>
      simpa [sendDataCalls] using ht
  · cases send <;> simp [onScanSuccess, onScanSuccess_afterFetch, showStatus]
  · cases send <;> simp [onScanSuccess, onScanSuccess_afterFetch, showStatus]

/-! ## Starting and stopping the camera session -/

/-- C5.  When camera acquisition fails (the first start request is rejected
and, for an OverconstrainedError, the fallback request is rejected too),
startScanner called with the scanning flag false ends in the Idle visual
state with the flag still false and a status of kind error; the text is fixed
by the cause, and the four texts are pairwise distinct. -/
theorem startScanner_failure (s : State) (err : JsErr) (second : Outcome)
    (hidle : s.isScanning = false)
    (hsecond : err.name = some "OverconstrainedError" → second ≠ .resolved) :
    idleUI (startScanner (.rejected err) second s).dom
    ∧ (startScanner (.rejected err) second s).isScanning = false
    ∧ (startScanner (.rejected err) second s).dom.statusEl = ["status", "error"]
    ∧ (startScanner (.rejected err) second s).dom.statusText
        = (if err.name = some "NotAllowedError" then "Разрешите доступ к камере"
          else if err.name = some "NotFoundError" then "Камера не найдена"
          else if err.name = some "OverconstrainedError" then "Камера недоступна"
          else "Не удалось запустить камеру")
    ∧ ["Разрешите доступ к камере", "Камера не найдена", "Камера недоступна",
        "Не удалось запустить камеру"].Nodup := by
  have hflag : (startScanner_begin s).isScanning = false := by
    simp only [startScanner_begin, emit, hideStatus]
    split <;> exact hidle
  refine ⟨?_, ?_, ?_, ?_, by decide⟩
  all_goals
    by_cases h1 : err.name = some "NotAllowedError"
    · simp [startScanner, startScanner_afterFirst, h1, idleUI_resetUI]
      first
        | done
        | simp [resetUI, showStatus, emit, hflag]
    · by_cases h2 : err.name = some "NotFoundError"
      · simp [startScanner, startScanner_afterFirst, h1, h2, idleUI_resetUI]
        first
          | done
          | simp [resetUI, showStatus, emit, hflag]
      · by_cases h3 : err.name = some "OverconstrainedError"
        · cases second with
          | resolved => exact absurd rfl (hsecond h3)
          | rejected e2 =>
            simp [startScanner, startScanner_afterFirst, startScanner_afterFallback, h3,
              idleUI_resetUI]
            first
              | done
              | simp [resetUI, showStatus, emit, hflag]
        · simp [startScanner, startScanner_afterFirst, h1, h2, h3, idleUI_resetUI]
          first
            | done
            | simp [resetUI, showStatus, emit, hflag]

/-- C5 at a denied permission: the page is Idle again and asks for camera
access. -/
theorem startScanner_failure_witness :
    exampleIdle.isScanning = false
    ∧ idleUI (startScanner (.rejected { name := some "NotAllowedError" }) .resolved
        exampleIdle).dom
    ∧ (startScanner (.rejected { name := some "NotAllowedError" }) .resolved
        exampleIdle).dom.statusText = "Разрешите доступ к камере" :=
  ⟨rfl,
   (startScanner_failure exampleIdle { name := some "NotAllowedError" } .resolved rfl
      (by decide)).1,
   (startScanner_failure exampleIdle { name := some "NotAllowedError" } .resolved rfl
      (by decide)).2.2.2.1⟩

/-- C6.  stopScanner ends in the Idle visual state and leaves the status
display as it was.  With no active session it calls nothing; with an active
session it calls html5QrCode.stop() once and resets the page whether that call
resolves (the scanning flag is cleared) or rejects (the failure goes to the
console only). -/
theorem stopScanner_idle (stop : Outcome) (s : State) :
    idleUI (stopScanner stop s).dom
    ∧ (stopScanner stop s).dom.statusEl = s.dom.statusEl
    ∧ (stopScanner stop s).dom.statusIcon = s.dom.statusIcon
    ∧ (stopScanner stop s).dom.statusText = s.dom.statusText
    ∧ (stopScanner stop s).trace
        = (if s.html5QrCode && s.isScanning then
            match stop with
            | .resolved => s.trace ++ [.cameraStop]
            | .rejected _ =>
              s.trace ++ [.cameraStop, .consoleError "Ошибка остановки сканера:"]
          else s.trace) := by
  by_cases h : (s.html5QrCode && s.isScanning) = true
  · cases stop <;>
      simp [stopScanner, stopScanner_begin, stopScanner_afterStop, h, idleUI_resetUI] <;>
      simp [resetUI, emit]
  · simp [stopScanner, stopScanner_begin, h, idleUI_resetUI]
    simp [resetUI]

/-- C7 as stated fails: with a session active, startScanner issues another
camera start request, and (the scanner rejecting it) changes the status
display and the page while the scanning flag stays true. -/
theorem startScanner_while_scanning_counterexample :
    exampleScanning.isScanning = true
    ∧ cameraStarts (startScanner (.rejected { name := none }) .resolved exampleScanning).trace
        = cameraStarts exampleScanning.trace ++ [{ facingMode := some "environment" }]
    ∧ (startScanner (.rejected { name := none }) .resolved exampleScanning).dom
        ≠ exampleScanning.dom := by
  decide

/-- C7, amended.  startScanner does not read the scanning flag: in every
state, a session being active or not, its synchronous part hides the status
display, hides the start button and issues a camera start request for the
back-facing camera; after a start that succeeds the start button is still
hidden and the scanning flag is true. -/
theorem startScanner_unguarded (first second : Outcome) (s : State) :
    (startScanner_begin s).trace
      = s.trace ++ [.cameraStart { facingMode := some "environment" } scanConfig]
    ∧ "hidden" ∈ (startScanner_begin s).dom.statusEl
    ∧ "hidden" ∈ (startScanner_begin s).dom.scanBtn
    ∧ (cameraStarts (startScanner first second s).trace).length
        > (cameraStarts s.trace).length
    ∧ "hidden" ∈ (startScanner .resolved second s).dom.scanBtn
    ∧ (startScanner .resolved second s).isScanning = true := by
  refine ⟨startScanner_begin_trace s, ?_, ?_, ?_, ?_, ?_⟩
  · rw [startScanner_begin_eq]
    exact classAdd_mem _ _
  · rw [startScanner_begin_eq]
    exact classAdd_mem _ _
  · simp [cameraStarts_startScanner]
  · simp only [startScanner, startScanner_afterFirst, startScanner_begin_eq]
    exact classAdd_mem _ _
  · simp [startScanner, startScanner_afterFirst]

/-- C8.  A run of startScanner issues one or two camera start requests, and
it issues the second one exactly when the first was rejected with the name
OverconstrainedError. -/
theorem startScanner_requests (first second : Outcome) (s : State) :
    1 ≤ (startRequests first second s).length
    ∧ (startRequests first second s).length ≤ 2
    ∧ ((startRequests first second s).length = 2
        ↔ ∃ err, first = .rejected err ∧ err.name = some "OverconstrainedError") := by
  rw [startRequests_eq]
  cases first with
  | resolved => simp
  | rejected err =>
    by_cases h : err.name = some "OverconstrainedError" <;> simp [h]

/-- C9 on the code: after an OverconstrainedError the requests of a run are
the back-facing camera and then the front-facing camera ("user"); the
fallback request names a facing mode, it is not unconstrained. -/
theorem startScanner_fallback_camera (second : Outcome) (s : State) :
    startRequests (.rejected { name := some "OverconstrainedError" }) second s
      = [{ facingMode := some "environment" }, { facingMode := some "user" }]
    ∧ ¬ unconstrained { facingMode := some "user" } := by
  rw [startRequests_eq]
  simp [unconstrained]

/-! ## While the check-in request is in flight -/

theorem stopScanner_begin_scanBtn (stop : Outcome) (s : State) :
    "hidden" ∉ (if (stopScanner_begin s).2 then stopScanner_afterStop stop (stopScanner_begin s).1
        else (stopScanner_begin s).1).dom.scanBtn := by
  unfold stopScanner_begin
  split
  · cases stop <;> simp [stopScanner_afterStop, resetUI, emit, classRemove_not_mem]
  · simp [resetUI, classRemove_not_mem]

/-- C10 as stated fails: with the check-in request in flight after a decode,
the start button is not hidden, and a start event issues a camera start
request. -/
theorem resume_while_submitting_counterexample :
    (onScanSuccess_inFlight "MEO-1" .resolved exampleScanning).trace.getLast?
      = some (.fetch "/api/check-in" "POST" "application/json"
          [("code", "MEO-1"), ("initData", "query_id=AAA")])
    ∧ "hidden" ∉ (onScanSuccess_inFlight "MEO-1" .resolved exampleScanning).dom.scanBtn
    ∧ cameraStarts
        (startScanner_begin (onScanSuccess_inFlight "MEO-1" .resolved exampleScanning)).trace
      ≠ cameraStarts (onScanSuccess_inFlight "MEO-1" .resolved exampleScanning).trace := by
  decide

/-- C10, amended.  While a check-in request is in flight, whatever the
outcome of stopping the session, the last call made is the request, the start
button is visible (resetUI has un-hidden it), and a start event issues a
camera start request for the back-facing camera: resuming the scan is not
blocked. -/
theorem resume_while_submitting (decodedText : String) (stop : Outcome) (s : State) :
    (onScanSuccess_inFlight decodedText stop s).trace.getLast?
      = some (.fetch "/api/check-in" "POST" "application/json"
          [("code", jsTrim decodedText), ("initData", s.tg.initData)])
    ∧ "hidden" ∉ (onScanSuccess_inFlight decodedText stop s).dom.scanBtn
    ∧ (startScanner_begin (onScanSuccess_inFlight decodedText stop s)).trace
        = (onScanSuccess_inFlight decodedText stop s).trace
            ++ [.cameraStart { facingMode := some "environment" } scanConfig] := by
  refine ⟨?_, ?_, startScanner_begin_trace _⟩
  · have htg : ∀ x : State, (if (stopScanner_begin x).2
          then stopScanner_afterStop stop (stopScanner_begin x).1
          else (stopScanner_begin x).1).tg = x.tg := by
      intro x
      unfold stopScanner_begin
      split
      · cases stop <;> simp [stopScanner_afterStop, resetUI, emit]
      · simp [resetUI]
    simp only [onScanSuccess_inFlight, onScanSuccess_begin, onScanSuccess_afterStop, emit,
      showStatus, htg]
    have hh : ∀ (k : String) (x : State), (haptic k x).tg = x.tg := by
      intro k x
      simp only [haptic]
      split <;> rfl
    have hurl : API_URL ++ "/api/check-in" = "/api/check-in" := by decide
    simp [hh, hurl]
  · simp only [onScanSuccess_inFlight, onScanSuccess_begin, onScanSuccess_afterStop, emit,
      showStatus]
    exact stopScanner_begin_scanBtn stop _

/-! ## Check-in requests of interleaved decode handlers -/

theorem fetchCount_emit (e : Effect) (s : State) :
    fetchCount (emit e s).trace
      = fetchCount s.trace + (match e with | .fetch _ _ _ _ => 1 | _ => 0) := by
  cases e <;> simp [fetchCount, emit, List.countP_append]

theorem fetchCount_haptic (kind : String) (s : State) :
    fetchCount (haptic kind s).trace = fetchCount s.trace := by
  simp only [haptic]
  split
  · simp [fetchCount_emit]
  · rfl

theorem fetchCount_stopScanner_begin (s : State) :
    fetchCount (stopScanner_begin s).1.trace = fetchCount s.trace := by
  unfold stopScanner_begin
  split
  · simp [fetchCount_emit]
  · rfl

theorem fetchCount_stopScanner_afterStop (stop : Outcome) (s : State) :
    fetchCount (stopScanner_afterStop stop s).trace = fetchCount s.trace := by
  cases stop
  · rfl
  · show fetchCount (emit _ s).trace = _
    simp [fetchCount_emit]

theorem fetchCount_onScanSuccess_begin (decodedText : String) (s : State) :
    fetchCount (onScanSuccess_begin decodedText s).1.trace = fetchCount s.trace := by
  simp [onScanSuccess_begin, fetchCount_stopScanner_begin, fetchCount_haptic, fetchCount_emit]

theorem fetchCount_onScanSuccess_afterStop (decodedText : String) (s : State) :
    fetchCount (onScanSuccess_afterStop decodedText s).trace = fetchCount s.trace + 1 := by
  simp only [onScanSuccess_afterStop, fetchCount_emit]
  rfl

theorem fetchCount_onScanSuccess_afterFetch (decodedText : String) (response : FetchOutcome)
    (send : Outcome) (s : State) :
    fetchCount (onScanSuccess_afterFetch decodedText response send s).trace
      = fetchCount s.trace := by
  cases response with
  | failed err =>
    cases send <;>
      simp only [onScanSuccess_afterFetch] <;>
      show fetchCount (emit _ (emit _ s)).trace = _ <;>
      simp [fetchCount_emit]
  | parsed r =>
    simp only [onScanSuccess_afterFetch]
    split
    · split
      · show fetchCount (emit _ (haptic _ s)).trace = _
        simp [fetchCount_emit, fetchCount_haptic]
      · show fetchCount (emit _ (haptic _ s)).trace = _
        simp [fetchCount_emit, fetchCount_haptic]
    · show fetchCount (haptic _ s).trace = _
      simp [fetchCount_haptic]

theorem pastStopCount_set (acts : List Activation) (i : Nat) (a b : Activation)
    (h : acts[i]? = some a) :
    pastStopCount (acts.set i b) + pastStopCount [a]
      = pastStopCount acts + pastStopCount [b] := by
  induction acts generalizing i with
  | nil => simp at h
  | cons x xs ih =>
    cases i with
    | zero =>
      simp at h
      subst h
      simp [pastStopCount, List.countP_cons]
      omega
    | succ j =>
      simp at h
      have := ih j h
      simp [pastStopCount, List.countP_cons] at this ⊢
      omega

theorem step_counts (sys : Sys) (ev : Event) :
    fetchCount (step sys ev).state.trace + pastStopCount sys.acts
      = fetchCount sys.state.trace + pastStopCount (step sys ev).acts
    ∧ (step sys ev).acts.length = sys.acts.length + decodeCount [ev] := by
  cases ev with
  | decode decodedText =>
    simp [step, fetchCount_onScanSuccess_begin, pastStopCount, decodeCount,
      List.countP_append]
  | stopSettled i stop =>
    simp only [step]
    split
    · rename_i decodedText stopPending h
      have hs := pastStopCount_set sys.acts i _ (.awaitingFetch decodedText) h
      simp [pastStopCount] at hs
      refine ⟨?_, by simp [decodeCount]⟩
      simp only [fetchCount_onScanSuccess_afterStop]
      have : fetchCount (if stopPending = true then stopScanner_afterStop stop sys.state
          else sys.state).trace = fetchCount sys.state.trace := by
        split
        · exact fetchCount_stopScanner_afterStop _ _
        · rfl
      rw [this]
      simp only [pastStopCount]
      omega
    · simp [decodeCount]
  | fetchSettled i response send =>
    simp only [step]
    split
    · rename_i decodedText h
      have hs := pastStopCount_set sys.acts i _ .finished h
      simp [pastStopCount] at hs
      refine ⟨?_, by simp [decodeCount]⟩
      simp only [fetchCount_onScanSuccess_afterFetch]
      simp only [pastStopCount]
      omega
    · simp [decodeCount]

theorem foldl_step_counts (evs : List Event) (sys : Sys) :
    fetchCount (evs.foldl step sys).state.trace + pastStopCount sys.acts
      = fetchCount sys.state.trace + pastStopCount (evs.foldl step sys).acts
    ∧ (evs.foldl step sys).acts.length = sys.acts.length + decodeCount evs := by
  induction evs generalizing sys with
  | nil => simp [decodeCount]
  | cons ev evs ih =>
    have h1 := step_counts sys ev
    have h2 := ih (step sys ev)
    simp only [List.foldl_cons]
    simp only [decodeCount, List.countP_cons, List.countP_nil] at h1 h2 ⊢
    omega

/-- C4 as stated fails: two decode-success events are delivered in one
session before the first stop has settled, and each handler issues a check-in
request once its stop settles (the second stop being rejected): two requests. -/
theorem two_decodes_two_requests_counterexample :
    fetchCount (run exampleScanning
        [.decode "MEO-1", .decode "MEO-1", .stopSettled 0 .resolved,
          .stopSettled 1 (.rejected { name := none })]).state.trace = 2
    ∧ ¬ fetchCount (run exampleScanning
        [.decode "MEO-1", .decode "MEO-1", .stopSettled 0 .resolved,
          .stopSettled 1 (.rejected { name := none })]).state.trace ≤ 1 := by
  decide

/-- C4, amended.  However the decode handlers of a session interleave and
whatever their stop calls return, onScanSuccess runs once per delivered
decode-success event, and the check-in requests issued are exactly one for
each activation whose stop has settled: no decode callback is ignored. -/
theorem one_request_per_decode (s : State) (evs : List Event) :
    (run s evs).acts.length = decodeCount evs
    ∧ fetchCount (run s evs).state.trace
        = fetchCount s.trace + pastStopCount (run s evs).acts
    ∧ pastStopCount (run s evs).acts ≤ decodeCount evs := by
  have h := foldl_step_counts evs { state := s, acts := [] }
  have hle : pastStopCount (run s evs).acts ≤ (run s evs).acts.length :=
    List.countP_le_length _
  simp only [run] at hle ⊢
  simp [pastStopCount] at h
  simp only [pastStopCount] at hle ⊢
  omega

end MeoBot
